import Mathlib

/-!
Verification of the GECK generator core (geck_generator/core): a shallow
embedding of the profile-merge, content-derivation, lookup and validation
functions, together with theorems settling the specified properties.

Python strings are modelled as lists of characters (`PyStr`), Python
dictionaries with string keys as functions `PyStr → Option Val`, and the
heterogeneous configuration values (string, list-of-string, None) as the
inductive type `Val`.
-/

namespace GECK

/-- Python strings, modelled as lists of characters. -/
abbrev PyStr := List Char

/-- Conversion of a Lean string literal to the character-list model. -/
def pys (s : String) : PyStr := s.data

/-- The single-quote character (used by Python string reprs). -/
def sq : Char := '\''

/-- The double-quote character (used by Python `repr` when the string
contains a single quote, as in `str(KeyError(...))`). -/
def dq : Char := '"'

/-- Characters stripped by Python `str.strip()` with no arguments
(ASCII whitespace as used throughout this code base). -/
def isSp (c : Char) : Bool :=
  c == ' ' || c == '\t' || c == '\n' || c == '\r' || c == '\x0b' || c == '\x0c'

/-- Python `s.rstrip(p)`: drop trailing characters satisfying `p`. -/
def pyRStrip (p : Char → Bool) (s : PyStr) : PyStr :=
  (s.reverse.dropWhile p).reverse

/-- Python `s.strip()`: drop leading and trailing whitespace. -/
def pyStrip (s : PyStr) : PyStr :=
  pyRStrip isSp (s.dropWhile isSp)

/-- Python `s.split("\n")`: split on every newline, keeping empty pieces;
the empty string splits to `[""]`. -/
def splitNL : PyStr → List PyStr
  | [] => [[]]
  | c :: rest =>
    if c = '\n' then [] :: splitNL rest
    else
      match splitNL rest with
      | [] => [[c]]
      | s :: ss => (c :: s) :: ss

/-- Heterogeneous Python values occurring in configurations: strings,
lists of strings, and `None`. -/
inductive Val : Type where
  | vstr : PyStr → Val
  | vlist : List PyStr → Val
  | vnone : Val
deriving DecidableEq

/-- Python truthiness of a configuration value: non-empty string or
non-empty list; `None` is falsy. -/
def truthy : Val → Bool
  | .vstr s => !s.isEmpty
  | .vlist l => !l.isEmpty
  | .vnone => false

/-- Truthiness of `config.get(k)`: an absent key is falsy. -/
def truthyO : Option Val → Bool
  | none => false
  | some v => truthy v

/-- A Python dict with string keys, modelled extensionally. -/
abbrev Cfg := PyStr → Option Val

/-- The empty dictionary `{}`. -/
def emptyCfg : Cfg := fun _ => none

/-- `d[k] = v`: dictionary update. -/
def setKey (c : Cfg) (k : PyStr) (v : Val) : Cfg :=
  fun x => if x = k then some v else c x

/-- `d.setdefault(k, v)`: insert `v` at `k` only when `k` is absent. -/
def setdefault (c : Cfg) (k : PyStr) (v : Val) : Cfg :=
  fun x => if x = k then some ((c k).getD v) else c x

/-! ## Content deriver (generator.py) -/

/-- `GECKGenerator.DEFAULT_INITIAL_TASK`. -/
def DEFAULT_INITIAL_TASK : PyStr := pys "Compile task list from log and LLM_init entries"

/-- `GECKGenerator._derive_initial_tasks` (generator.py lines 152-180),
over the values read from the config: `config.get("initial_task", "")`
and `config.get("success_criteria", [])`. -/
def derive_initial_tasks (initial_task : PyStr) (success_criteria : List PyStr) : List PyStr :=
  let tasks : List PyStr := [] ++ [DEFAULT_INITIAL_TASK]
  let it := pyStrip initial_task
  let tasks := if it.isEmpty then tasks else tasks ++ [it]
  success_criteria.foldl
    (fun acc criterion =>
      if (pyStrip criterion).isEmpty then acc else acc ++ [pyStrip criterion])
    tasks

/-- Python `line.lstrip("-*")`: drop leading bullet-marker characters. -/
def lstripDash (s : PyStr) : PyStr :=
  s.dropWhile (fun c => c == '-' || c == '*')

/-- `GECKGenerator._parse_goal_to_bullets` (generator.py lines 182-212). -/
def parse_goal_to_bullets (goal : PyStr) : List PyStr :=
  if goal.isEmpty then [pys "No goal specified"]
  else
    let lines := splitNL (pyStrip goal)
    let bullets := lines.foldl
      (fun acc line =>
        let line := pyStrip line
        if line.isEmpty then acc
        else
          let line := pyStrip (lstripDash line)
          if line.isEmpty then acc else acc ++ [line])
      []
    if bullets.isEmpty then [pyStrip goal] else bullets

/-! ## Helper lemmas about stripping and splitting -/

theorem dropWhile_dropWhile (p : Char → Bool) (l : List Char) :
    (l.dropWhile p).dropWhile p = l.dropWhile p := by
  induction l with
  | nil => rfl
  | cons a l ih =>
    by_cases h : p a
    · simp [List.dropWhile_cons, h, ih]
    · simp [List.dropWhile_cons, h]

theorem dropWhile_head_false (p : Char → Bool) (l : List Char) (c : Char)
    (h : (l.dropWhile p).head? = some c) : p c = false := by
  induction l with
  | nil => simp at h
  | cons a l ih =>
    rw [List.dropWhile_cons] at h
    by_cases hp : p a
    · exact ih (by simpa [hp] using h)
    · simp [hp] at h
      subst h
      simpa using hp

theorem dropWhile_eq_self_of_head (p : Char → Bool) (l : List Char)
    (h : ∀ c, l.head? = some c → p c = false) : l.dropWhile p = l := by
  cases l with
  | nil => rfl
  | cons a t =>
    have := h a rfl
    simp [List.dropWhile_cons, this]

/-- `l.dropWhile p` is a suffix of `l`: there is a dropped front part. -/
theorem dropWhile_decomp (p : Char → Bool) (l : List Char) :
    ∃ t, l = t ++ l.dropWhile p := by
  induction l with
  | nil => exact ⟨[], rfl⟩
  | cons a l ih =>
    by_cases h : p a
    · obtain ⟨t, ht⟩ := ih
      exact ⟨a :: t, by simp [List.dropWhile_cons, h, ← ht]⟩
    · exact ⟨[], by simp [List.dropWhile_cons, h]⟩

theorem pyRStrip_head (p : Char → Bool) (m : List Char) (c : Char)
    (hh : (pyRStrip p m).head? = some c) : m.head? = some c := by
  obtain ⟨t, ht⟩ := dropWhile_decomp p m.reverse
  have hm : m = pyRStrip p m ++ t.reverse := by
    unfold pyRStrip
    calc m = m.reverse.reverse := by simp
    _ = (t ++ m.reverse.dropWhile p).reverse := by rw [← ht]
    _ = (m.reverse.dropWhile p).reverse ++ t.reverse := by simp
  cases hr : pyRStrip p m with
  | nil => rw [hr] at hh; simp at hh
  | cons b r =>
    rw [hr] at hh
    simp at hh
    subst hh
    rw [hm, hr]
    rfl

theorem pyRStrip_pyRStrip (p : Char → Bool) (m : List Char) :
    pyRStrip p (pyRStrip p m) = pyRStrip p m := by
  unfold pyRStrip
  rw [List.reverse_reverse, dropWhile_dropWhile]

theorem pyStrip_idem (s : PyStr) : pyStrip (pyStrip s) = pyStrip s := by
  unfold pyStrip
  have hhead : ∀ c, (pyRStrip isSp (s.dropWhile isSp)).head? = some c → isSp c = false := by
    intro c hc
    exact dropWhile_head_false isSp s c (pyRStrip_head isSp (s.dropWhile isSp) c hc)
  rw [dropWhile_eq_self_of_head isSp _ hhead, pyRStrip_pyRStrip]

theorem mem_pyStrip {c : Char} {s : PyStr} (h : c ∈ pyStrip s) : c ∈ s := by
  unfold pyStrip pyRStrip at h
  rw [List.mem_reverse] at h
  have h1 := (List.dropWhile_sublist (l := (s.dropWhile isSp).reverse) isSp).mem h
  rw [List.mem_reverse] at h1
  exact (List.dropWhile_sublist (l := s) isSp).mem h1

theorem splitNL_no_newline (l : PyStr) (h : '\n' ∉ l) : splitNL l = [l] := by
  induction l with
  | nil => rfl
  | cons c rest ih =>
    have hc : ¬(c = '\n') := fun hcc => h (by rw [hcc]; exact List.mem_cons_self _ _)
    have hrest : '\n' ∉ rest := fun hr => h (List.mem_cons_of_mem _ hr)
    unfold splitNL
    rw [if_neg hc, ih hrest]

theorem dropWhile_eq_nil_of_all (p : Char → Bool) (l : List Char)
    (h : ∀ c ∈ l, p c = true) : l.dropWhile p = [] := by
  induction l with
  | nil => rfl
  | cons a t ih =>
    have ha := h a (List.mem_cons_self _ _)
    rw [List.dropWhile_cons, if_pos (by simp [ha])]
    exact ih (fun c hc => h c (List.mem_cons_of_mem _ hc))

theorem pyStrip_eq_nil_of_all_space (l : PyStr) (h : ∀ c ∈ l, isSp c = true) :
    pyStrip l = [] := by
  unfold pyStrip pyRStrip
  rw [dropWhile_eq_nil_of_all isSp l h]
  rfl

theorem collect_criteria (l : List PyStr) (init : List PyStr) :
    l.foldl (fun acc c => if (pyStrip c).isEmpty then acc else acc ++ [pyStrip c]) init
      = init ++ (l.map pyStrip).filter (fun s => !s.isEmpty) := by
  induction l generalizing init with
  | nil => simp
  | cons c t ih =>
    rw [List.foldl_cons]
    cases h : (pyStrip c).isEmpty
    · rw [if_neg (by simp [h]), ih, List.map_cons, List.filter_cons]
      simp [h, List.append_assoc]
    · rw [if_pos (by simp [h]), ih, List.map_cons, List.filter_cons]
      simp [h]

/-- C2: the derived task list always starts with the constant default task,
is never empty, and consists of that task, then the trimmed initial task when
non-blank, then the trimmed non-blank success criteria in their original
order. -/
theorem derive_initial_tasks_spec (it : PyStr) (sc : List PyStr) :
    (derive_initial_tasks it sc).head? = some DEFAULT_INITIAL_TASK ∧
    1 ≤ (derive_initial_tasks it sc).length ∧
    derive_initial_tasks it sc =
      DEFAULT_INITIAL_TASK ::
        ((if (pyStrip it).isEmpty then [] else [pyStrip it]) ++
          (sc.map pyStrip).filter (fun s => !s.isEmpty)) := by
  have key : derive_initial_tasks it sc =
      DEFAULT_INITIAL_TASK ::
        ((if (pyStrip it).isEmpty then [] else [pyStrip it]) ++
          (sc.map pyStrip).filter (fun s => !s.isEmpty)) := by
    unfold derive_initial_tasks
    rw [collect_criteria]
    cases h : (pyStrip it).isEmpty <;> simp [h]
  refine ⟨?_, ?_, key⟩ <;> rw [key] <;> simp

/-- Claim C3 as literally stated is false: a goal whose first character is
whitespace (hence not a leading dash or star) but whose trimmed form starts
with a dash is returned with the dash stripped, not as its trimmed self. -/
theorem parse_goal_single_line_cex :
    (pys " -x").isEmpty = false ∧ '\n' ∉ pys " -x" ∧
    (pys " -x").head? ≠ some '-' ∧ (pys " -x").head? ≠ some '*' ∧
    parse_goal_to_bullets (pys " -x") ≠ [pyStrip (pys " -x")] := by decide

/-- C3 (amended): empty goal gives the placeholder; a non-empty goal with no
newline whose trimmed form does not start with a dash or star parses to the
single bullet equal to the trimmed goal. -/
theorem parse_goal_single_line (g : PyStr) (h1 : g.isEmpty = false)
    (h2 : '\n' ∉ g)
    (h3 : Option.all (fun c => !(c == '-' || c == '*')) (pyStrip g).head? = true) :
    parse_goal_to_bullets g = [pyStrip g] ∧
    parse_goal_to_bullets [] = [pys "No goal specified"] := by
  refine ⟨?_, rfl⟩
  have hnl : '\n' ∉ pyStrip g := fun hmem => h2 (mem_pyStrip hmem)
  unfold parse_goal_to_bullets
  rw [if_neg (by simp [h1])]
  rw [splitNL_no_newline (pyStrip g) hnl]
  simp only [List.foldl_cons, List.foldl_nil, pyStrip_idem]
  cases hstrip : pyStrip g with
  | nil => simp
  | cons c r =>
    have hc : (c == '-' || c == '*') = false := by
      have := h3
      rw [hstrip] at this
      simpa [Option.all] using this
    have hld : lstripDash (c :: r) = c :: r := by
      unfold lstripDash
      rw [List.dropWhile_cons, if_neg (by simp [hc])]
    rw [← hstrip] at hld ⊢
    rw [hld, pyStrip_idem, hstrip]
    simp

/-- C10: a non-empty all-whitespace goal parses to the singleton list holding
the empty string (its trimmed self), not to the "No goal specified"
placeholder, which is reserved for empty/falsy input. -/
theorem parse_goal_whitespace (g : PyStr) (h1 : g.isEmpty = false)
    (h2 : ∀ c ∈ g, isSp c = true) :
    parse_goal_to_bullets g = [[]] ∧
    parse_goal_to_bullets g ≠ [pys "No goal specified"] := by
  have hs : pyStrip g = [] := pyStrip_eq_nil_of_all_space g h2
  have key : parse_goal_to_bullets g = [[]] := by
    unfold parse_goal_to_bullets
    rw [if_neg (by simp [h1]), hs]
    rfl
  exact ⟨key, by rw [key]; decide⟩

/-- Witness for the amended C3 at a concrete input. -/
theorem parse_goal_single_line_witness :
    parse_goal_to_bullets (pys " Build it ") = [pyStrip (pys " Build it ")] ∧
    parse_goal_to_bullets [] = [pys "No goal specified"] :=
  parse_goal_single_line (pys " Build it ") (by decide) (by decide) (by decide)

/-- Witness for C10 at a concrete input. -/
theorem parse_goal_whitespace_witness :
    parse_goal_to_bullets (pys "  ") = [[]] ∧
    parse_goal_to_bullets (pys "  ") ≠ [pys "No goal specified"] :=
  parse_goal_whitespace (pys "  ") (by decide) (by decide)

/-! ## Exploration-goal merge (generator.py, generate_repor_instructions) -/

/-- The duplicate-removal loop of `generate_repor_instructions`
(generator.py lines 475-481): a `seen` set (modelled as the list of
already-kept goals) and an output list built in input order. -/
def uniqueLoop (seen : List PyStr) : List PyStr → List PyStr
  | [] => []
  | g :: rest =>
    if g ∈ seen then uniqueLoop seen rest
    else g :: uniqueLoop (g :: seen) rest

/-- The exploration-goal list passed to the repor template
(generator.py lines 467-490), as a function of the profile goals and the
caller-supplied exploration goals. -/
def mergeExplorationGoals (profile_goals exploration_goals : List PyStr) : List PyStr :=
  if (uniqueLoop [] (profile_goals ++ exploration_goals)).isEmpty
  then [pys "General code exploration and analysis"]
  else uniqueLoop [] (profile_goals ++ exploration_goals)

/-- Specification-side characterisation: the sublist of first occurrences,
in order. -/
def firstOccs : List PyStr → List PyStr
  | [] => []
  | a :: as => a :: (firstOccs as).filter (fun x => decide (x ≠ a))

/-- The index of the first occurrence of `x` in a list (length of the list
when absent). -/
def firstIdx (x : PyStr) : List PyStr → Nat
  | [] => 0
  | a :: t => if a = x then 0 else firstIdx x t + 1

/-- The elements of `d` are ordered by the index of their first occurrence
in `l`. -/
def firstIndexOrdered (l d : List PyStr) : Prop :=
  List.Pairwise (fun x y => firstIdx x l < firstIdx y l) d

theorem firstIdx_cons_self (x : PyStr) (l : List PyStr) : firstIdx x (x :: l) = 0 := by
  simp [firstIdx]

theorem firstIdx_cons_ne (x a : PyStr) (l : List PyStr) (h : a ≠ x) :
    firstIdx x (a :: l) = firstIdx x l + 1 := by
  simp [firstIdx, h]

theorem uniqueLoop_eq_firstOccs (l : List PyStr) :
    ∀ seen, uniqueLoop seen l = (firstOccs l).filter (fun x => decide (x ∉ seen)) := by
  induction l with
  | nil => intro seen; rfl
  | cons g rest ih =>
    intro seen
    unfold uniqueLoop firstOccs
    rw [List.filter_cons]
    by_cases hg : g ∈ seen
    · rw [if_pos hg, if_neg (by simp [hg]), ih seen, List.filter_filter]
      refine List.filter_congr ?_
      intro x _
      by_cases hx : x ∈ seen
      · simp [hx]
      · have hxg : x ≠ g := fun he => hx (he ▸ hg)
        simp [hx, hxg]
    · rw [if_neg hg, if_pos (by simp [hg]), ih (g :: seen), List.filter_filter]
      refine congrArg (g :: ·) (List.filter_congr ?_)
      intro x _
      by_cases hxg : x = g
      · simp [hxg]
      · by_cases hx : x ∈ seen <;> simp [hx, hxg, List.mem_cons]

theorem firstOccs_nodup (l : List PyStr) : (firstOccs l).Nodup := by
  induction l with
  | nil => exact List.nodup_nil
  | cons a as ih =>
    unfold firstOccs
    rw [List.nodup_cons]
    exact ⟨fun hmem => by simpa using (List.mem_filter.mp hmem).2, ih.filter _⟩

theorem firstOccs_mem (l : List PyStr) (x : PyStr) : x ∈ firstOccs l ↔ x ∈ l := by
  induction l with
  | nil => exact Iff.rfl
  | cons a as ih =>
    unfold firstOccs
    by_cases hxa : x = a
    · simp [hxa]
    · simp [List.mem_cons, List.mem_filter, hxa, ih]

theorem firstOccs_ordered (l : List PyStr) : firstIndexOrdered l (firstOccs l) := by
  induction l with
  | nil => exact List.Pairwise.nil
  | cons a as ih =>
    unfold firstOccs firstIndexOrdered
    rw [List.pairwise_cons]
    constructor
    · intro y hy
      have hya : y ≠ a := by simpa using (List.mem_filter.mp hy).2
      rw [firstIdx_cons_self, firstIdx_cons_ne y a as (fun h => hya h.symm)]
      exact Nat.succ_pos _
    · have hsub : List.Sublist ((firstOccs as).filter (fun x => decide (x ≠ a)))
          (firstOccs as) := List.filter_sublist _
      have hpw := List.Pairwise.sublist hsub ih
      refine hpw.imp_of_mem ?_
      intro x y hx hy hlt
      have hxa : x ≠ a := by simpa using (List.mem_filter.mp hx).2
      have hya : y ≠ a := by simpa using (List.mem_filter.mp hy).2
      rw [firstIdx_cons_ne x a as (fun h => hxa h.symm),
        firstIdx_cons_ne y a as (fun h => hya h.symm)]
      exact Nat.succ_lt_succ hlt

/-- C4: the goal list passed to the repor template is the concatenation of
profile goals and caller goals with later duplicates removed (each surviving
string kept at its first occurrence, in first-occurrence order, no
duplicates), and the default placeholder is substituted exactly when that
deduplicated list is empty. -/
theorem repor_goal_merge_spec (pg cg : List PyStr) (x : PyStr) :
    mergeExplorationGoals pg cg =
      (if (pg ++ cg).isEmpty then [pys "General code exploration and analysis"]
       else firstOccs (pg ++ cg)) ∧
    (firstOccs (pg ++ cg)).Nodup ∧
    (x ∈ firstOccs (pg ++ cg) ↔ x ∈ pg ++ cg) ∧
    firstIndexOrdered (pg ++ cg) (firstOccs (pg ++ cg)) := by
  refine ⟨?_, firstOccs_nodup _, firstOccs_mem _ _, firstOccs_ordered _⟩
  unfold mergeExplorationGoals
  have hid : uniqueLoop [] (pg ++ cg) = firstOccs (pg ++ cg) := by
    rw [uniqueLoop_eq_firstOccs]
    have hfun : (fun x : PyStr => decide (x ∉ ([] : List PyStr))) = fun _ => true := by
      funext y
      simp
    rw [hfun, List.filter_true]
  rw [hid]
  cases h : pg ++ cg with
  | nil => rfl
  | cons a t => rfl

/-! ## Profile manager (profiles.py) -/

/-- Python `repr` of a string without quotes or backslashes in it:
surround with single quotes (as in `str(["a", "b"])`). -/
def pyReprStr (s : PyStr) : PyStr := sq :: (s ++ [sq])

/-- Comma-space join, as Python `str(list)` does between elements. -/
def joinComma : List PyStr → PyStr
  | [] => []
  | [x] => x
  | x :: y :: t => x ++ pys ", " ++ joinComma (y :: t)

/-- Python `str` of a list of strings: bracketed, single-quoted,
comma-separated. -/
def pyReprList (l : List PyStr) : PyStr :=
  '[' :: (joinComma (l.map pyReprStr) ++ [']'])

/-- The state of a `ProfileManager`: the built-in table `self._profiles`
and the caller-added table `self._custom_profiles`, each an insertion-ordered
string-keyed dictionary of profile dictionaries. -/
structure ProfileManagerState where
  profiles : List (PyStr × Cfg)
  custom_profiles : List (PyStr × Cfg)

/-- `ProfileManager.list_profiles`: built-in keys then custom keys. -/
def list_profiles (pm : ProfileManagerState) : List PyStr :=
  pm.profiles.map Prod.fst ++ pm.custom_profiles.map Prod.fst

/-- The message of the `KeyError` raised by `ProfileManager.get_profile`:
`f"Profile '{name}' not found. Available: {self.list_profiles()}"`. -/
def notFoundMsg (pm : ProfileManagerState) (name : PyStr) : PyStr :=
  pys "Profile " ++ [sq] ++ name ++ [sq] ++ pys " not found. Available: "
    ++ pyReprList (list_profiles pm)

/-- `ProfileManager.get_profile` (profiles.py lines 529-546): custom table
first, then built-ins, else a `KeyError` carrying `notFoundMsg`. -/
def get_profile (pm : ProfileManagerState) (name : PyStr) : Except PyStr Cfg :=
  match List.lookup name pm.custom_profiles with
  | some p => Except.ok p
  | none =>
    match List.lookup name pm.profiles with
    | some p => Except.ok p
    | none => Except.error (notFoundMsg pm name)

/-! ## Substring occurrence -/

/-- `n` occurs as a contiguous substring of `h`. -/
def isSubOf (n : PyStr) : PyStr → Bool
  | [] => n.isEmpty
  | c :: t => n.isPrefixOf (c :: t) || isSubOf n t

theorem isPrefixOf_append_self : ∀ (n b : List Char), n.isPrefixOf (n ++ b) = true := by
  intro n
  induction n with
  | nil => intro b; simp [List.isPrefixOf]
  | cons a as ih => intro b; simp [List.isPrefixOf, ih]

theorem isSubOf_decomp (n : PyStr) : ∀ (a b : PyStr), isSubOf n (a ++ n ++ b) = true := by
  intro a
  induction a with
  | nil =>
    intro b
    rw [List.nil_append]
    cases h : n ++ b with
    | nil =>
      have hn : n = [] := (List.append_eq_nil.mp h).1
      rw [hn]
      rfl
    | cons c t =>
      unfold isSubOf
      rw [← h, isPrefixOf_append_self]
      rfl
  | cons c t ih =>
    intro b
    have hshape : (c :: t) ++ n ++ b = c :: (t ++ n ++ b) := by simp
    rw [hshape]
    unfold isSubOf
    rw [ih b, Bool.or_true]

theorem joinComma_decomp (k : PyStr) :
    ∀ (l : List PyStr), k ∈ l →
      ∃ x y, joinComma (l.map pyReprStr) = x ++ pyReprStr k ++ y := by
  intro l
  induction l with
  | nil => intro h; simp at h
  | cons a t ih =>
    intro hmem
    cases t with
    | nil =>
      have hk : k = a := by simpa using hmem
      subst hk
      exact ⟨[], [], by simp [joinComma]⟩
    | cons b t2 =>
      rcases List.mem_cons.mp hmem with hk | hk
      · subst hk
        refine ⟨[], pys ", " ++ joinComma ((b :: t2).map pyReprStr), ?_⟩
        simp [joinComma, List.append_assoc]
      · obtain ⟨x, y, hxy⟩ := ih hk
        refine ⟨pyReprStr a ++ pys ", " ++ x, y, ?_⟩
        simp only [List.map_cons, joinComma, List.map] at hxy ⊢
        rw [hxy]
        simp [List.append_assoc]

theorem notFoundMsg_contains_name (pm : ProfileManagerState) (n : PyStr) :
    isSubOf n (notFoundMsg pm n) = true := by
  have hshape : notFoundMsg pm n =
      (pys "Profile " ++ [sq]) ++ n ++
        ([sq] ++ (pys " not found. Available: " ++ pyReprList (list_profiles pm))) := by
    simp [notFoundMsg, List.append_assoc]
  rw [hshape]
  exact isSubOf_decomp n _ _

/-- All known profile names appear (quoted) in `msg`. -/
def allNamesListed (pm : ProfileManagerState) (msg : PyStr) : Bool :=
  (list_profiles pm).all (fun k => isSubOf (pyReprStr k) msg)

theorem notFoundMsg_lists_all (pm : ProfileManagerState) (n : PyStr) :
    allNamesListed pm (notFoundMsg pm n) = true := by
  unfold allNamesListed
  rw [List.all_eq_true]
  intro k hk
  obtain ⟨x, y, hxy⟩ := joinComma_decomp k (list_profiles pm) hk
  have hshape : notFoundMsg pm n =
      ((pys "Profile " ++ [sq] ++ n ++ [sq] ++ pys " not found. Available: ") ++ ('[' :: x))
        ++ pyReprStr k ++ (y ++ [']']) := by
    simp only [notFoundMsg, pyReprList, hxy]
    simp [List.append_assoc]
  rw [hshape]
  exact isSubOf_decomp (pyReprStr k) _ _

/-- C5: a name absent from both tables makes `get_profile` fail with a
message that contains the missing name and lists every known profile name
(quoted); a name present in both tables resolves to the custom profile. -/
theorem get_profile_spec (pm : ProfileManagerState) (n m : PyStr) (p q : Cfg)
    (h1 : List.lookup n pm.custom_profiles = none)
    (h2 : List.lookup n pm.profiles = none)
    (h3 : List.lookup m pm.custom_profiles = some p)
    (h4 : List.lookup m pm.profiles = some q) :
    get_profile pm n = Except.error (notFoundMsg pm n) ∧
    isSubOf n (notFoundMsg pm n) = true ∧
    allNamesListed pm (notFoundMsg pm n) = true ∧
    get_profile pm m = Except.ok p := by
  refine ⟨?_, notFoundMsg_contains_name pm n, notFoundMsg_lists_all pm n, ?_⟩
  · unfold get_profile
    rw [h1, h2]
  · unfold get_profile
    rw [h3]

/-- The built-in `PROFILES["cli_tool"]` entry (profiles.py lines 226-241). -/
def cliToolProfile : Cfg := fun k =>
  if k = pys "name" then some (Val.vstr (pys "CLI Tool"))
  else if k = pys "description" then
    some (Val.vstr (pys "Command-line interface application"))
  else if k = pys "languages" then some (Val.vstr (pys "Python 3.11+"))
  else if k = pys "frameworks" then
    some (Val.vlist [pys "Click", pys "Typer", pys "argparse"])
  else if k = pys "platforms" then
    some (Val.vlist [pys "Linux", pys "Windows", pys "macOS"])
  else if k = pys "suggested_criteria" then
    some (Val.vlist
      [pys "All commands execute without errors",
       pys "Help text is accurate and complete",
       pys "Exit codes are correct",
       pys "Input validation works properly",
       pys "Error messages are clear and actionable"])
  else if k = pys "suggested_must_use" then
    some (Val.vstr (pys "Type hints, proper exit codes"))
  else if k = pys "suggested_must_avoid" then
    some (Val.vstr (pys "Hardcoded paths, platform-specific assumptions"))
  else none

/-- The built-in `PROFILES["microservice"]` entry (profiles.py lines
353-368). -/
def microserviceProfile : Cfg := fun k =>
  if k = pys "name" then some (Val.vstr (pys "Microservice"))
  else if k = pys "description" then
    some (Val.vstr (pys "Containerized microservice for distributed systems"))
  else if k = pys "languages" then some (Val.vstr (pys "Python 3.11+"))
  else if k = pys "frameworks" then
    some (Val.vlist [pys "FastAPI", pys "Flask", pys "gRPC"])
  else if k = pys "platforms" then
    some (Val.vlist [pys "Docker", pys "Kubernetes"])
  else if k = pys "suggested_criteria" then
    some (Val.vlist
      [pys "Service starts and responds to health checks",
       pys "All endpoints function correctly",
       pys "Service handles failures gracefully",
       pys "Logging and metrics are properly configured",
       pys "Container builds and runs successfully"])
  else if k = pys "suggested_must_use" then
    some (Val.vstr (pys "Health check endpoints, structured logging, environment variables for config"))
  else if k = pys "suggested_must_avoid" then
    some (Val.vstr (pys "Storing state locally, hardcoded service URLs"))
  else none

/-- A caller-added custom profile (an input value, as built by
`ProfileManager.add_profile`). -/
def customCliProfile : Cfg := fun k =>
  if k = pys "name" then some (Val.vstr (pys "Custom Test"))
  else if k = pys "description" then some (Val.vstr (pys "A custom test profile"))
  else if k = pys "languages" then some (Val.vstr (pys "Go"))
  else none

/-- A manager state holding two built-in profiles and no custom ones
(the initial state restricted to those keys). -/
def pmTwo : ProfileManagerState :=
  ⟨[(pys "cli_tool", cliToolProfile), (pys "microservice", microserviceProfile)], []⟩

/-- A manager state where the key `cli_tool` is present in both the
built-in and the custom table. -/
def pmBoth : ProfileManagerState :=
  ⟨[(pys "cli_tool", cliToolProfile), (pys "microservice", microserviceProfile)],
   [(pys "cli_tool", customCliProfile)]⟩

/-- Witness for C5 at concrete inputs: a missing name errors with a message
naming it and listing all known names; the colliding name resolves to the
custom profile. -/
theorem get_profile_spec_witness :
    get_profile pmBoth (pys "nope") = Except.error (notFoundMsg pmBoth (pys "nope")) ∧
    isSubOf (pys "nope") (notFoundMsg pmBoth (pys "nope")) = true ∧
    allNamesListed pmBoth (notFoundMsg pmBoth (pys "nope")) = true ∧
    get_profile pmBoth (pys "cli_tool") = Except.ok customCliProfile :=
  get_profile_spec pmBoth (pys "nope") (pys "cli_tool") customCliProfile cliToolProfile
    rfl rfl rfl rfl

/-! ## Profile application (profiles.py, apply_profile) -/

/-- The profile-field to config-key table of `apply_profile`
(profiles.py lines 588-595), in source order. -/
def mappings : List (PyStr × PyStr) :=
  [(pys "languages", pys "languages"),
   (pys "frameworks", pys "frameworks"),
   (pys "platforms", pys "platforms"),
   (pys "suggested_criteria", pys "success_criteria"),
   (pys "suggested_must_use", pys "must_use"),
   (pys "suggested_must_avoid", pys "must_avoid")]

/-- One iteration of the merge loop (profiles.py lines 597-600): when the
profile has the field and the config key is absent or falsy, copy the
profile value in. -/
def mergeStep (profile : Cfg) (result : Cfg) (m : PyStr × PyStr) : Cfg :=
  match profile m.1 with
  | none => result
  | some v => if truthyO (result m.2) = true then result else setKey result m.2 v

/-- `profile.get("name", profile_name)` (profiles.py line 604). -/
def displayName (profile : Cfg) (profile_name : PyStr) : Val :=
  (profile (pys "name")).getD (Val.vstr profile_name)

/-- The merge performed by `apply_profile` once the profile dictionary is in
hand (profiles.py lines 585-606): fold the mapping table over a copy of the
base config, then set the two metadata keys. -/
def mergeProfile (profile : Cfg) (profile_name : PyStr) (base_config : Cfg) : Cfg :=
  setKey
    (setKey (mappings.foldl (mergeStep profile) base_config)
      (pys "_profile_name") (Val.vstr profile_name))
    (pys "_profile_display_name") (displayName profile profile_name)

/-- `ProfileManager.apply_profile` (profiles.py lines 571-606): look the
profile up, then merge. -/
def apply_profile (pm : ProfileManagerState) (base_config : Cfg)
    (profile_name : PyStr) : Except PyStr Cfg :=
  (get_profile pm profile_name).map
    (fun profile => mergeProfile profile profile_name base_config)

theorem mergeStep_ne (profile acc : Cfg) (m : PyStr × PyStr) (k : PyStr)
    (h : k ≠ m.2) : mergeStep profile acc m k = acc k := by
  unfold mergeStep
  cases hp : profile m.1 with
  | none => rfl
  | some v =>
    show (if truthyO (acc m.2) = true then acc else setKey acc m.2 v) k = acc k
    by_cases ht : truthyO (acc m.2) = true
    · rw [if_pos ht]
    · rw [if_neg ht]
      unfold setKey
      rw [if_neg h]

theorem foldl_mergeStep_ne (profile : Cfg) (k : PyStr) :
    ∀ (ms : List (PyStr × PyStr)) (acc : Cfg), k ∉ ms.map Prod.snd →
      ms.foldl (mergeStep profile) acc k = acc k := by
  intro ms
  induction ms with
  | nil => intro acc _; rfl
  | cons m ms ih =>
    intro acc hk
    have hk1 : k ≠ m.2 := by
      intro he
      exact hk (by rw [List.map_cons]; exact he ▸ List.mem_cons_self _ _)
    have hk2 : k ∉ ms.map Prod.snd := by
      intro hm
      exact hk (by rw [List.map_cons]; exact List.mem_cons_of_mem _ hm)
    rw [List.foldl_cons, ih _ hk2, mergeStep_ne profile acc m k hk1]

theorem foldl_mergeStep_char (profile : Cfg) (k : PyStr) :
    ∀ (ms : List (PyStr × PyStr)) (acc : Cfg), (ms.map Prod.snd).Nodup →
      ms.foldl (mergeStep profile) acc k =
        (match ms.find? (fun m => decide (m.2 = k)) with
         | none => acc k
         | some m =>
           match profile m.1 with
           | none => acc k
           | some v => if truthyO (acc k) = true then acc k else some v) := by
  intro ms
  induction ms with
  | nil => intro acc _; rfl
  | cons m ms ih =>
    intro acc hnd
    rw [List.map_cons, List.nodup_cons] at hnd
    rw [List.foldl_cons]
    by_cases hk : m.2 = k
    · have hfind : (m :: ms).find? (fun m => decide (m.2 = k)) = some m := by
        rw [List.find?_cons_of_pos _ (by simp [hk])]
      rw [hfind]
      have hnot : k ∉ ms.map Prod.snd := hk ▸ hnd.1
      rw [foldl_mergeStep_ne profile k ms _ hnot]
      subst hk
      show mergeStep profile acc m m.2 =
        (match profile m.1 with
         | none => acc m.2
         | some v => if truthyO (acc m.2) = true then acc m.2 else some v)
      unfold mergeStep
      cases hp : profile m.1 with
      | none => rfl
      | some v =>
        show (if truthyO (acc m.2) = true then acc else setKey acc m.2 v) m.2 =
          (if truthyO (acc m.2) = true then acc m.2 else some v)
        by_cases ht : truthyO (acc m.2) = true
        · rw [if_pos ht, if_pos ht]
        · rw [if_neg ht, if_neg ht]
          unfold setKey
          rw [if_pos rfl]
    · have hfind : (m :: ms).find? (fun m => decide (m.2 = k)) =
          ms.find? (fun m => decide (m.2 = k)) := by
        rw [List.find?_cons_of_neg _ (by simp [hk])]
      rw [hfind, ih _ hnd.2]
      have hacc : mergeStep profile acc m k = acc k :=
        mergeStep_ne profile acc m k (fun he => hk he.symm)
      simp only [hacc]

/-- The config-key to profile-field correspondence of the merge table, as a
function (specification side). -/
def mappingSrc (k : PyStr) : Option PyStr :=
  if k = pys "languages" then some (pys "languages")
  else if k = pys "frameworks" then some (pys "frameworks")
  else if k = pys "platforms" then some (pys "platforms")
  else if k = pys "success_criteria" then some (pys "suggested_criteria")
  else if k = pys "must_use" then some (pys "suggested_must_use")
  else if k = pys "must_avoid" then some (pys "suggested_must_avoid")
  else none

theorem mappings_find (k : PyStr) :
    mappings.find? (fun m => decide (m.2 = k)) =
      (mappingSrc k).map (fun pk => (pk, k)) := by
  by_cases h1 : k = pys "languages"
  · subst h1; rfl
  by_cases h2 : k = pys "frameworks"
  · subst h2; rfl
  by_cases h3 : k = pys "platforms"
  · subst h3; rfl
  by_cases h4 : k = pys "success_criteria"
  · subst h4; rfl
  by_cases h5 : k = pys "must_use"
  · subst h5; rfl
  by_cases h6 : k = pys "must_avoid"
  · subst h6; rfl
  have g1 : ¬(pys "languages" = k) := fun he => h1 he.symm
  have g2 : ¬(pys "frameworks" = k) := fun he => h2 he.symm
  have g3 : ¬(pys "platforms" = k) := fun he => h3 he.symm
  have g4 : ¬(pys "success_criteria" = k) := fun he => h4 he.symm
  have g5 : ¬(pys "must_use" = k) := fun he => h5 he.symm
  have g6 : ¬(pys "must_avoid" = k) := fun he => h6 he.symm
  simp [mappings, mappingSrc, List.find?, g1, g2, g3, g4, g5, g6, h1, h2, h3, h4, h5, h6]

theorem mergeProfile_meta_name (p : Cfg) (n : PyStr) (c : Cfg) :
    mergeProfile p n c (pys "_profile_name") = some (Val.vstr n) := by
  unfold mergeProfile setKey
  rw [if_neg (by decide), if_pos rfl]

theorem mergeProfile_meta_display (p : Cfg) (n : PyStr) (c : Cfg) :
    mergeProfile p n c (pys "_profile_display_name") = some (displayName p n) := by
  unfold mergeProfile setKey
  rw [if_pos rfl]

/-- Claim C1 as literally stated is false: the merged result does not leave
every non-mapped key of the base config unchanged, because `_profile_name`
(and `_profile_display_name`) are overwritten unconditionally even when the
base config already holds them. -/
def cexBase : Cfg :=
  fun k => if k = pys "_profile_name" then some (Val.vstr (pys "old")) else none

theorem apply_profile_other_keys_cex :
    (pys "_profile_name") ∉ mappings.map Prod.snd ∧
    cexBase (pys "_profile_name") = some (Val.vstr (pys "old")) ∧
    apply_profile pmTwo cexBase (pys "microservice") =
      Except.ok (mergeProfile microserviceProfile (pys "microservice") cexBase) ∧
    mergeProfile microserviceProfile (pys "microservice") cexBase (pys "_profile_name")
      ≠ cexBase (pys "_profile_name") :=
  ⟨by decide, rfl, rfl, by decide⟩

/-- C1 (amended): for a profile `p` known to the manager, applying it fills
exactly the mapped config keys whose profile field exists and whose current
value is absent or falsy, leaves every truthy mapped key and every other key
unchanged — except the two metadata keys `_profile_name` and
`_profile_display_name`, which are set unconditionally. -/
theorem apply_profile_fill_missing (pm : ProfileManagerState) (n : PyStr)
    (p : Cfg) (c : Cfg) (k : PyStr)
    (h : get_profile pm n = Except.ok p) :
    apply_profile pm c n = Except.ok (mergeProfile p n c) ∧
    mergeProfile p n c k =
      (if k = pys "_profile_display_name" then some (displayName p n)
       else if k = pys "_profile_name" then some (Val.vstr n)
       else
         match mappingSrc k with
         | none => c k
         | some pk =>
           match p pk with
           | none => c k
           | some v => if truthyO (c k) = true then c k else some v) := by
  constructor
  · unfold apply_profile
    rw [h]
    rfl
  · by_cases hd : k = pys "_profile_display_name"
    · rw [if_pos hd, hd]
      exact mergeProfile_meta_display p n c
    · rw [if_neg hd]
      by_cases hn : k = pys "_profile_name"
      · rw [if_pos hn, hn]
        exact mergeProfile_meta_name p n c
      · rw [if_neg hn]
        unfold mergeProfile setKey
        rw [if_neg hd, if_neg hn]
        rw [foldl_mergeStep_char p k mappings c (by decide)]
        rw [mappings_find k]
        cases hsrc : mappingSrc k with
        | none => rfl
        | some pk => rfl

/-- A base config with a truthy `languages` and a falsy (empty-list)
`platforms`, used to witness both branches of the fill rule. -/
def cW1 : Cfg := fun k =>
  if k = pys "languages" then some (Val.vstr (pys "Rust"))
  else if k = pys "platforms" then some (Val.vlist [])
  else none

/-- Witness for the amended C1 at concrete inputs. -/
theorem apply_profile_fill_missing_witness :
    (apply_profile pmTwo cW1 (pys "microservice") =
      Except.ok (mergeProfile microserviceProfile (pys "microservice") cW1) ∧
    mergeProfile microserviceProfile (pys "microservice") cW1 (pys "languages") =
      (if pys "languages" = pys "_profile_display_name" then
        some (displayName microserviceProfile (pys "microservice"))
       else if pys "languages" = pys "_profile_name" then
        some (Val.vstr (pys "microservice"))
       else
         match mappingSrc (pys "languages") with
         | none => cW1 (pys "languages")
         | some pk =>
           match microserviceProfile pk with
           | none => cW1 (pys "languages")
           | some v =>
             if truthyO (cW1 (pys "languages")) = true then cW1 (pys "languages")
             else some v)) ∧
    mergeProfile microserviceProfile (pys "microservice") cW1 (pys "languages") =
      some (Val.vstr (pys "Rust")) ∧
    mergeProfile microserviceProfile (pys "microservice") cW1 (pys "platforms") =
      some (Val.vlist [pys "Docker", pys "Kubernetes"]) :=
  ⟨apply_profile_fill_missing pmTwo (pys "microservice") microserviceProfile cW1
      (pys "languages") rfl,
   by decide, by decide⟩

/-! ## Core defaults (generator.py, generate and init_geck_folder) -/

/-- The `config.setdefault` block shared by `generate` (generator.py lines
116-120) and `init_geck_folder` (lines 242-246). -/
def applyDefaults (c : Cfg) : Cfg :=
  setdefault
    (setdefault
      (setdefault
        (setdefault c (pys "project_name") (Val.vstr (pys "Untitled Project")))
        (pys "goal") (Val.vstr (pys "No goal specified.")))
      (pys "success_criteria") (Val.vlist []))
    (pys "platforms") (Val.vlist [])

/-- Claim C6 as literally stated is false: re-applying a different profile
to the result of a first application produces a configuration whose
`_profile_name` and `_profile_display_name` differ from the first one. -/
def cfgAfterFirst : Cfg := mergeProfile cliToolProfile (pys "cli_tool") emptyCfg

def cfgAfterSecond : Cfg :=
  mergeProfile microserviceProfile (pys "microservice") cfgAfterFirst

theorem profile_metadata_cex :
    apply_profile pmTwo emptyCfg (pys "cli_tool") = Except.ok cfgAfterFirst ∧
    apply_profile pmTwo cfgAfterFirst (pys "microservice") = Except.ok cfgAfterSecond ∧
    cfgAfterFirst (pys "_profile_name") = some (Val.vstr (pys "cli_tool")) ∧
    cfgAfterSecond (pys "_profile_name") = some (Val.vstr (pys "microservice")) ∧
    cfgAfterSecond (pys "_profile_name") ≠ cfgAfterFirst (pys "_profile_name") ∧
    cfgAfterSecond (pys "_profile_display_name")
      ≠ cfgAfterFirst (pys "_profile_display_name") :=
  ⟨rfl, rfl, by decide, by decide, by decide, by decide⟩

/-- C6 (amended): after `apply_profile` both metadata keys are present,
holding the profile key and its display name; the defaults block of
`generate`/`init_geck_folder` never changes them; but a later
`apply_profile` with another profile overwrites them with the newer
profile's data. -/
theorem profile_metadata_spec (p : Cfg) (n : PyStr) (c : Cfg)
    (p2 : Cfg) (n2 : PyStr) :
    mergeProfile p n c (pys "_profile_name") = some (Val.vstr n) ∧
    mergeProfile p n c (pys "_profile_display_name") = some (displayName p n) ∧
    applyDefaults (mergeProfile p n c) (pys "_profile_name") = some (Val.vstr n) ∧
    applyDefaults (mergeProfile p n c) (pys "_profile_display_name")
      = some (displayName p n) ∧
    mergeProfile p2 n2 (mergeProfile p n c) (pys "_profile_name")
      = some (Val.vstr n2) ∧
    mergeProfile p2 n2 (mergeProfile p n c) (pys "_profile_display_name")
      = some (displayName p2 n2) := by
  have hdef : ∀ (d : Cfg) (k : PyStr), k ≠ pys "project_name" → k ≠ pys "goal" →
      k ≠ pys "success_criteria" → k ≠ pys "platforms" → applyDefaults d k = d k := by
    intro d k hk1 hk2 hk3 hk4
    unfold applyDefaults setdefault
    rw [if_neg hk4, if_neg hk3, if_neg hk2, if_neg hk1]
  refine ⟨mergeProfile_meta_name p n c, mergeProfile_meta_display p n c, ?_, ?_,
    mergeProfile_meta_name p2 n2 _, mergeProfile_meta_display p2 n2 _⟩
  · rw [hdef _ _ (by decide) (by decide) (by decide) (by decide)]
    exact mergeProfile_meta_name p n c
  · rw [hdef _ _ (by decide) (by decide) (by decide) (by decide)]
    exact mergeProfile_meta_display p n c

theorem applyDefaults_ne (d : Cfg) (k : PyStr) (hk1 : k ≠ pys "project_name")
    (hk2 : k ≠ pys "goal") (hk3 : k ≠ pys "success_criteria")
    (hk4 : k ≠ pys "platforms") : applyDefaults d k = d k := by
  unfold applyDefaults setdefault
  rw [if_neg hk4, if_neg hk3, if_neg hk2, if_neg hk1]

/-! ## Caller-visible configuration state (generator.py, generate) -/

/-- The caller-supplied config mapping as it stands after `generate(config)`
or `init_geck_folder(root, config)` returns (generator.py lines 112-120 and
238-246): with a truthy `profile` the local name is rebound to the fresh
dict returned by `apply_profile`, so the caller's mapping is untouched;
otherwise the four `setdefault` calls act directly on the caller's
mapping. -/
def generateCallerConfig (c : Cfg) : Cfg :=
  if truthyO (c (pys "profile")) = true then c else applyDefaults c

/-- The default value `generate`/`init_geck_folder` would insert at a key
(specification side). -/
def coreDefault (k : PyStr) : Option Val :=
  if k = pys "project_name" then some (Val.vstr (pys "Untitled Project"))
  else if k = pys "goal" then some (Val.vstr (pys "No goal specified."))
  else if k = pys "success_criteria" then some (Val.vlist [])
  else if k = pys "platforms" then some (Val.vlist [])
  else none

/-- Claim C7 as literally stated is false: `generate({})` adds the default
keys to the caller's mapping itself (the `setdefault` calls mutate it), so
the mapping is not equal to its pre-call value. -/
theorem generate_no_mutation_cex :
    generateCallerConfig emptyCfg (pys "project_name")
      = some (Val.vstr (pys "Untitled Project")) ∧
    emptyCfg (pys "project_name") = none ∧
    generateCallerConfig emptyCfg (pys "project_name")
      ≠ emptyCfg (pys "project_name") :=
  ⟨by decide, rfl, by decide⟩

/-- C7 (amended): `apply_profile` and `validate_config` leave the
caller-supplied mapping untouched (they are modelled as pure functions of
it); `generate` and `init_geck_folder` leave it untouched whenever the
config has a truthy `profile`, and otherwise mutate it only by inserting
the four core defaults at absent keys — existing entries are never changed
and no other key is added. -/
theorem generate_caller_mutation_spec (c : Cfg) (k : PyStr) :
    generateCallerConfig c k =
      (if truthyO (c (pys "profile")) = true then c k
       else (c k).or (coreDefault k)) := by
  unfold generateCallerConfig
  by_cases ht : truthyO (c (pys "profile")) = true
  · rw [if_pos ht, if_pos ht]
  · rw [if_neg ht, if_neg ht]
    by_cases h1 : k = pys "project_name"
    · subst h1
      rw [show applyDefaults c (pys "project_name")
          = some ((c (pys "project_name")).getD (Val.vstr (pys "Untitled Project"))) from rfl]
      rw [show coreDefault (pys "project_name")
          = some (Val.vstr (pys "Untitled Project")) from rfl]
      cases hc : c (pys "project_name") <;> simp
    · by_cases h2 : k = pys "goal"
      · subst h2
        rw [show applyDefaults c (pys "goal")
            = some ((c (pys "goal")).getD (Val.vstr (pys "No goal specified."))) from rfl]
        rw [show coreDefault (pys "goal")
            = some (Val.vstr (pys "No goal specified.")) from rfl]
        cases hc : c (pys "goal") <;> simp
      · by_cases h3 : k = pys "success_criteria"
        · subst h3
          rw [show applyDefaults c (pys "success_criteria")
              = some ((c (pys "success_criteria")).getD (Val.vlist [])) from rfl]
          rw [show coreDefault (pys "success_criteria")
              = some (Val.vlist []) from rfl]
          cases hc : c (pys "success_criteria") <;> simp
        · by_cases h4 : k = pys "platforms"
          · subst h4
            rw [show applyDefaults c (pys "platforms")
                = some ((c (pys "platforms")).getD (Val.vlist [])) from rfl]
            rw [show coreDefault (pys "platforms") = some (Val.vlist []) from rfl]
            cases hc : c (pys "platforms") <;> simp
          · rw [applyDefaults_ne c k h1 h2 h3 h4]
            unfold coreDefault
            rw [if_neg h1, if_neg h2, if_neg h3, if_neg h4]
            cases hc : c k <;> simp

/-! ## Template renderer default injection (templates.py, render) -/

/-- The variable mapping actually handed to the template by
`TemplateEngine.render` (templates.py lines 392-396):
`merged_vars = {**defaults, **variables}` where `defaults` holds only
`created_date`; `today` stands for the current local date already formatted
as `YYYY-MM-DD`. -/
def renderMergedVars (today : PyStr) (varsIn : Cfg) : Cfg :=
  fun k =>
    match varsIn k with
    | some v => some v
    | none => if k = pys "created_date" then some (Val.vstr today) else none

/-- C8: the mapping passed to the template agrees with the caller's mapping
on every key except that `created_date` is filled with the current date
exactly when the caller did not define it (caller value wins). -/
theorem render_created_date_spec (today : PyStr) (varsIn : Cfg) (k : PyStr) :
    renderMergedVars today varsIn k =
      (if k = pys "created_date" then some ((varsIn k).getD (Val.vstr today))
       else varsIn k) := by
  unfold renderMergedVars
  cases hv : varsIn k with
  | none => by_cases hk : k = pys "created_date" <;> simp [hk]
  | some v => by_cases hk : k = pys "created_date" <;> simp [hk]

/-! ## Config validation (generator.py, validate_config) -/

/-- The runtime error escaping `validate_config` when the truthy `profile`
value is an unhashable list: Python raises `TypeError` from the dictionary
membership test inside `get_profile`, and `except KeyError` does not catch
it. -/
inductive PyError where
  | typeError : PyError
deriving DecidableEq

/-- Python `isinstance(v, list)`. -/
def isList : Val → Bool
  | .vlist _ => true
  | _ => false

/-- `str(e)` for `e : KeyError`: the `repr` of the message string, which
contains single quotes and no double quotes, so Python surrounds it with
double quotes. -/
def strKeyError (m : PyStr) : PyStr := dq :: (m ++ [dq])

/-- The profile check of `validate_config` (generator.py lines 383-387):
run only for a truthy profile value; a failed lookup is caught and turned
into an error string; an unhashable (list) value raises `TypeError`. -/
def profileCheckErrs (pm : ProfileManagerState) (v : Option Val) :
    Except PyError (List PyStr) :=
  if truthyO v = true then
    match v with
    | some (Val.vstr s) =>
      match get_profile pm s with
      | Except.ok _ => Except.ok []
      | Except.error m => Except.ok [strKeyError m]
    | some (Val.vlist _) => Except.error PyError.typeError
    | _ => Except.ok []
  else Except.ok []

/-- One `if key in config: if not isinstance(config[key], list)` check of
`validate_config` (generator.py lines 390-397): append `msg` when the key is
present with a non-list value. -/
def listCheckErrs (v : Option Val) (msg : PyStr) (errors : List PyStr) : List PyStr :=
  match v with
  | none => errors
  | some w => if isList w = true then errors else errors ++ [msg]

/-- `GECKGenerator.validate_config` (generator.py lines 363-399). -/
def validate_config (pm : ProfileManagerState) (config : Cfg) :
    Except PyError (List PyStr) :=
  let errors : List PyStr := []
  let errors := if truthyO (config (pys "project_name")) = true then errors
    else errors ++ [pys "Project name is required"]
  let errors := if truthyO (config (pys "goal")) = true then errors
    else errors ++ [pys "Project goal is required"]
  match profileCheckErrs pm (config (pys "profile")) with
  | Except.error e => Except.error e
  | Except.ok perrs =>
    let errors := errors ++ perrs
    let errors := listCheckErrs (config (pys "success_criteria"))
      (pys "Success criteria must be a list") errors
    let errors := listCheckErrs (config (pys "platforms"))
      (pys "Platforms must be a list") errors
    Except.ok errors

/-- The `project_name` check passes (specification side). -/
def passProject (c : Cfg) : Bool := truthyO (c (pys "project_name"))

/-- The `goal` check passes (specification side). -/
def passGoal (c : Cfg) : Bool := truthyO (c (pys "goal"))

/-- A lookup result is a success (specification side). -/
def isOkB : Except PyStr Cfg → Bool
  | .ok _ => true
  | .error _ => false

/-- The profile check passes: profile absent, falsy, or resolvable
(specification side). -/
def profOK (pm : ProfileManagerState) (c : Cfg) : Bool :=
  match c (pys "profile") with
  | some (Val.vstr s) => s.isEmpty || isOkB (get_profile pm s)
  | _ => true

/-- The `success_criteria` check passes: absent or list-typed
(specification side). -/
def scOK (c : Cfg) : Bool :=
  match c (pys "success_criteria") with
  | none => true
  | some v => isList v

/-- The `platforms` check passes: absent or list-typed
(specification side). -/
def platOK (c : Cfg) : Bool :=
  match c (pys "platforms") with
  | none => true
  | some v => isList v

/-- The profile value is not a truthy list (the only shape on which the
validator raises). -/
def noListProfile (c : Cfg) : Bool :=
  match c (pys "profile") with
  | some (Val.vlist l) => l.isEmpty
  | _ => true

/-- The error list carried by a successful validation result. -/
def exErrs : Except PyError (List PyStr) → List PyStr
  | .ok l => l
  | .error _ => []

/-- The validation result is a normal return, not a raised exception. -/
def vOkB : Except PyError (List PyStr) → Bool
  | .ok _ => true
  | .error _ => false

/-- When the profile is a truthy string that fails to resolve, its lookup
message (in `str(KeyError)` form) is among the reported errors. -/
def profMsgSurfaced (pm : ProfileManagerState) (c : Cfg) (errs : List PyStr) : Prop :=
  match c (pys "profile") with
  | some (Val.vstr s) =>
    match get_profile pm s with
    | Except.ok _ => True
    | Except.error m => s = [] ∨ strKeyError m ∈ errs
  | _ => True

/-- The error list of the profile check, in the non-raising case
(specification side). -/
def profErrList (pm : ProfileManagerState) (c : Cfg) : List PyStr :=
  match c (pys "profile") with
  | some (Val.vstr s) =>
    if s.isEmpty then []
    else
      match get_profile pm s with
      | Except.ok _ => []
      | Except.error m => [strKeyError m]
  | _ => []

theorem profileCheckErrs_eq (pm : ProfileManagerState) (c : Cfg)
    (h : noListProfile c = true) :
    profileCheckErrs pm (c (pys "profile")) = Except.ok (profErrList pm c) := by
  unfold noListProfile at h
  unfold profileCheckErrs profErrList
  cases hp : c (pys "profile") with
  | none => rfl
  | some v =>
    cases v with
    | vnone => rfl
    | vstr s =>
      cases hs : s.isEmpty with
      | true =>
        have : truthyO (some (Val.vstr s)) = false := by
          simp [truthyO, truthy, hs]
        rw [this]
        simp [hs]
      | false =>
        have : truthyO (some (Val.vstr s)) = true := by
          simp [truthyO, truthy, hs]
        rw [this]
        simp only [if_true, hs, Bool.false_eq_true, if_false]
        cases hg : get_profile pm s <;> rfl
    | vlist l =>
      rw [hp] at h
      have hl : l.isEmpty = true := h
      have : truthyO (some (Val.vlist l)) = false := by
        simp [truthyO, truthy, hl]
      rw [this]
      rfl

theorem listCheckErrs_sc (c : Cfg) (msg : PyStr) (errors : List PyStr) :
    listCheckErrs (c (pys "success_criteria")) msg errors =
      errors ++ (if scOK c = true then [] else [msg]) := by
  unfold listCheckErrs scOK
  cases hv : c (pys "success_criteria") with
  | none => simp
  | some w => cases hw : isList w <;> simp [hw]

theorem listCheckErrs_plat (c : Cfg) (msg : PyStr) (errors : List PyStr) :
    listCheckErrs (c (pys "platforms")) msg errors =
      errors ++ (if platOK c = true then [] else [msg]) := by
  unfold listCheckErrs platOK
  cases hv : c (pys "platforms") with
  | none => simp
  | some w => cases hw : isList w <;> simp [hw]

theorem validate_config_eq (pm : ProfileManagerState) (c : Cfg)
    (h : noListProfile c = true) :
    validate_config pm c = Except.ok
      ((if passProject c = true then [] else [pys "Project name is required"]) ++
       ((if passGoal c = true then [] else [pys "Project goal is required"]) ++
        (profErrList pm c ++
         ((if scOK c = true then [] else [pys "Success criteria must be a list"]) ++
          (if platOK c = true then [] else [pys "Platforms must be a list"]))))) := by
  unfold validate_config
  rw [profileCheckErrs_eq pm c h]
  simp only [listCheckErrs_sc, listCheckErrs_plat]
  unfold passProject passGoal
  cases h1 : truthyO (c (pys "project_name")) <;>
    cases h2 : truthyO (c (pys "goal")) <;>
      simp [List.append_assoc]

theorem isEmpty_append (a b : List PyStr) :
    (a ++ b).isEmpty = (a.isEmpty && b.isEmpty) := by
  cases a <;> cases b <;> simp

theorem profErrList_isEmpty (pm : ProfileManagerState) (c : Cfg) :
    (profErrList pm c).isEmpty = profOK pm c := by
  unfold profErrList profOK
  cases hp : c (pys "profile") with
  | none => rfl
  | some v =>
    cases v with
    | vnone => rfl
    | vlist l => rfl
    | vstr s =>
      cases hs : s.isEmpty with
      | true => simp [hs]
      | false =>
        simp only [hs, Bool.false_eq_true, if_false, Bool.false_or]
        cases hg : get_profile pm s <;> simp [isOkB]

theorem profMsgSurfaced_of_mem (pm : ProfileManagerState) (c : Cfg) (errs : List PyStr)
    (hmem : ∀ x ∈ profErrList pm c, x ∈ errs) :
    profMsgSurfaced pm c errs := by
  unfold profMsgSurfaced
  cases hp : c (pys "profile") with
  | none => trivial
  | some v =>
    cases v with
    | vnone => trivial
    | vlist l => trivial
    | vstr s =>
      show (match get_profile pm s with
            | Except.ok _ => True
            | Except.error m => s = [] ∨ strKeyError m ∈ errs)
      cases hg : get_profile pm s with
      | ok p => trivial
      | error m =>
        show s = [] ∨ strKeyError m ∈ errs
        cases hs : s.isEmpty with
        | true => exact Or.inl (List.isEmpty_iff.mp hs)
        | false =>
          refine Or.inr (hmem _ ?_)
          unfold profErrList
          rw [hp]
          simp [hs, hg]

/-- Claim C9 as literally stated is false on the "never raises" part: a
truthy list-valued `profile` makes `get_profile` test `name in dict` with an
unhashable key, so `validate_config` propagates a `TypeError` instead of
returning an error list. -/
def badProfileCfg : Cfg := fun k =>
  if k = pys "project_name" then some (Val.vstr (pys "Demo"))
  else if k = pys "goal" then some (Val.vstr (pys "Ship"))
  else if k = pys "profile" then some (Val.vlist [pys "x"])
  else none

theorem validate_config_raises_cex :
    noListProfile badProfileCfg = false ∧
    validate_config pmTwo badProfileCfg = Except.error PyError.typeError :=
  ⟨rfl, rfl⟩

/-- C9 (amended): for every config whose `profile` value is not a truthy
list (the unhashable shape on which Python raises `TypeError`),
`validate_config` returns normally; the returned list is empty exactly when
all five applicable checks pass, and every failing check contributes its
message independently of the others (no short-circuiting), with a failed
profile lookup surfaced as the stringified `KeyError` message. -/
theorem validate_config_spec (pm : ProfileManagerState) (c : Cfg)
    (h : noListProfile c = true) :
    vOkB (validate_config pm c) = true ∧
    (exErrs (validate_config pm c)).isEmpty =
      (passProject c && passGoal c && profOK pm c && scOK c && platOK c) ∧
    (passProject c = true ∨
      pys "Project name is required" ∈ exErrs (validate_config pm c)) ∧
    (passGoal c = true ∨
      pys "Project goal is required" ∈ exErrs (validate_config pm c)) ∧
    profMsgSurfaced pm c (exErrs (validate_config pm c)) ∧
    (scOK c = true ∨
      pys "Success criteria must be a list" ∈ exErrs (validate_config pm c)) ∧
    (platOK c = true ∨
      pys "Platforms must be a list" ∈ exErrs (validate_config pm c)) := by
  rw [validate_config_eq pm c h]
  refine ⟨rfl, ?_, ?_, ?_, ?_, ?_, ?_⟩
  · show (List.isEmpty _) = _
    simp only [exErrs, isEmpty_append, profErrList_isEmpty]
    cases hb1 : passProject c <;> cases hb2 : passGoal c <;>
      cases hb3 : scOK c <;> cases hb4 : platOK c <;> simp
  · cases hb1 : passProject c with
    | true => exact Or.inl rfl
    | false =>
      refine Or.inr ?_
      simp [exErrs, List.mem_append, hb1]
  · cases hb2 : passGoal c with
    | true => exact Or.inl rfl
    | false =>
      refine Or.inr ?_
      simp [exErrs, List.mem_append, hb2]
  · refine profMsgSurfaced_of_mem pm c _ ?_
    intro x hx
    simp [exErrs, List.mem_append, hx]
  · cases hb3 : scOK c with
    | true => exact Or.inl rfl
    | false =>
      refine Or.inr ?_
      simp [exErrs, List.mem_append, hb3]
  · cases hb4 : platOK c with
    | true => exact Or.inl rfl
    | false =>
      refine Or.inr ?_
      simp [exErrs, List.mem_append, hb4]

/-- A config missing `project_name`, with an unresolvable profile and a
string-valued `platforms`, exercising three independent failures. -/
def cfgV : Cfg := fun k =>
  if k = pys "goal" then some (Val.vstr (pys "Ship"))
  else if k = pys "profile" then some (Val.vstr (pys "nope"))
  else if k = pys "platforms" then some (Val.vstr (pys "Linux"))
  else none

/-- Witness for the amended C9 at concrete inputs. -/
theorem validate_config_spec_witness :
    vOkB (validate_config pmTwo cfgV) = true ∧
    (exErrs (validate_config pmTwo cfgV)).isEmpty =
      (passProject cfgV && passGoal cfgV && profOK pmTwo cfgV &&
        scOK cfgV && platOK cfgV) ∧
    (passProject cfgV = true ∨
      pys "Project name is required" ∈ exErrs (validate_config pmTwo cfgV)) ∧
    (passGoal cfgV = true ∨
      pys "Project goal is required" ∈ exErrs (validate_config pmTwo cfgV)) ∧
    profMsgSurfaced pmTwo cfgV (exErrs (validate_config pmTwo cfgV)) ∧
    (scOK cfgV = true ∨
      pys "Success criteria must be a list" ∈ exErrs (validate_config pmTwo cfgV)) ∧
    (platOK cfgV = true ∨
      pys "Platforms must be a list" ∈ exErrs (validate_config pmTwo cfgV)) :=
  validate_config_spec pmTwo cfgV rfl

end GECK
